import Mathlib

/-!
# Real-time event reconciliation layer of the Strix frontend

Shallow embedding of the WebSocket event layer: the transport connection
state machine, the subscription registry with reference counts, the event
router, and the `useWebSocket` React-hook wrapper together with its two
page-level callers (`HomePage`, `ScanDetailPage`).

The hook wrapper is embedded from `src/unnamed/part_004` (`useWebSocket`),
the pages from `src/frontend/src/hooks/useVulnerabilities.ts` (`HomePage`)
and `src/unnamed/part_005` (`ScanDetailPage`), and the inbound/outbound
frame shapes from the `WebSocketMessage` / `WebSocketSubscribeMessage` /
`WebSocketUnsubscribeMessage` declarations.  The `WebSocketClient` class
itself (`src/lib/websocket.ts`) is not part of the provided sources, so
its behaviour is modelled from the specification (sections 4.1 - 4.3,
5 and 7), as noted on each definition.
-/

namespace Strix

/-- Connection lifecycle state of the transport (spec section 4.1):
`Idle -> Connecting -> Open -> Closed -> Connecting (retry)`. -/
inductive ConnState
  | Idle
  | Connecting
  | Open
  | Closed
  deriving Repr, DecidableEq

/-- A typed event, the decoded form of an inbound frame
(`WebSocketMessage` in the frontend type declarations): a `type` tag,
an opaque data mapping, an optional scan identifier and an optional
timestamp. -/
structure Event where
  type : String
  data : List (String × String)
  scan_id : Option String
  timestamp : Option Nat
  deriving Repr, DecidableEq

/-- A raw inbound frame as it arrives on the transport.  It is either
not JSON at all, JSON lacking the `type` field, or a well-formed typed
event. -/
inductive RawFrame
  | notJson (text : String)
  | jsonNoType (data : List (String × String))
  | jsonEvent (e : Event)
  deriving Repr, DecidableEq

/-- Modelled from the spec: frame decoding at the Event Router
(section 4.3 step 1).  A frame that is not JSON or is missing its
`type` field fails to decode. -/
def decodeFrame : RawFrame → Option Event
  | .notJson _ => none
  | .jsonNoType _ => none
  | .jsonEvent e => some e

/-- An outbound control frame (`WebSocketSubscribeMessage` /
`WebSocketUnsubscribeMessage` in the frontend type declarations). -/
inductive CtrlFrame
  | subscribeFrame (scan_ids : List String)
  | unsubscribeFrame (scan_ids : List String)
  deriving Repr, DecidableEq

/-- Modelled from the spec: the state owned by one `WebSocketClient`
instance (spec sections 3 and 4): the connection lifecycle state, the
desired subscription set with per-identifier reference counts, the
listener registrations in registration order (each a fresh numeric
registration id paired with the event type it listens for), and the
pending-reconnect-timer flag.  `initialScanId` is the constructor's
optional convenience parameter (spec section 6). -/
structure ClientState where
  conn : ConnState
  refCounts : List (String × Nat)
  listeners : List (Nat × String)
  nextRegId : Nat
  reconnectPending : Bool
  initialScanId : Option String
  deriving Repr, DecidableEq

/-- Modelled from the spec: a freshly constructed client, before
`connect()` is called. -/
def newClient (sid : Option String) : ClientState :=
  { conn := .Idle, refCounts := [], listeners := [], nextRegId := 0,
    reconnectPending := false, initialScanId := sid }

/-- Reference count of one scan identifier in the registry. -/
def getCount (rc : List (String × Nat)) (x : String) : Nat :=
  match rc with
  | [] => 0
  | (y, n) :: rest => if y = x then n else getCount rest x

/-- Increment the reference count of `x`, inserting it with count 1 if
absent. -/
def incCount (rc : List (String × Nat)) (x : String) : List (String × Nat) :=
  match rc with
  | [] => [(x, 1)]
  | (y, n) :: rest =>
      if y = x then (y, n + 1) :: rest else (y, n) :: incCount rest x

/-- Decrement the reference count of `x`, removing the entry when the
count reaches zero. -/
def decCount (rc : List (String × Nat)) (x : String) : List (String × Nat) :=
  match rc with
  | [] => []
  | (y, n) :: rest =>
      if y = x then (if n ≤ 1 then rest else (y, n - 1) :: rest)
      else (y, n) :: decCount rest x

/-- Modelled from the spec: add identifiers to the registry (spec
section 4.2 `subscribe`), returning the updated counts and the
newly-added identifiers (those whose count was zero), in order. -/
def addIds (rc : List (String × Nat)) : List String → List (String × Nat) × List String
  | [] => (rc, [])
  | x :: xs =>
      let isNew := getCount rc x = 0
      let r := addIds (incCount rc x) xs
      (r.1, if isNew then x :: r.2 else r.2)

/-- Modelled from the spec: remove identifiers from the registry (spec
section 4.2 `unsubscribe`), returning the updated counts and the
identifiers whose count reached zero, in order. -/
def removeIds (rc : List (String × Nat)) : List String → List (String × Nat) × List String
  | [] => (rc, [])
  | x :: xs =>
      let lastRef := getCount rc x = 1
      let r := removeIds (decCount rc x) xs
      (r.1, if lastRef then x :: r.2 else r.2)

/-- The desired subscription set: the identifiers currently holding an
entry in the reference-count registry. -/
def desiredIds (s : ClientState) : List String :=
  s.refCounts.map Prod.fst

/-- Everything one step of the client emits at its boundary: outbound
control frames, connection-observer notifications, listener invocations
(registration id paired with the delivered event), per-listener caught
errors, and the count of dropped (undecodable) frames. -/
structure Output where
  sent : List CtrlFrame
  notified : List Bool
  invoked : List (Nat × Event)
  errors : List (Nat × String)
  dropped : Nat
  deriving Repr, DecidableEq

/-- The silent output. -/
def noOutput : Output :=
  { sent := [], notified := [], invoked := [], errors := [], dropped := 0 }

/-- External stimuli and caller operations driving one client. -/
inductive Action
  | connect
  | openEvt
  | closeEvt
  | disconnect
  | timerFire
  | subscribeAct (ids : List String)
  | unsubscribeAct (ids : List String)
  | frame (f : RawFrame)
  | onAct (eventType : String)
  | disposeAct (regId : Nat)
  deriving Repr, DecidableEq

/-- Modelled from the spec: `connect()` (spec section 4.1), idempotent
while already `Connecting` or `Open`. -/
def connectOp (s : ClientState) : ClientState :=
  match s.conn with
  | .Connecting => s
  | .Open => s
  | _ => { s with conn := .Connecting }

/-- Modelled from the spec: successful handshake (spec sections 4.1 and
4.2): `Connecting -> Open`, notify connection observers with `true`,
and send one subscribe control frame carrying the entire current
desired set before any other outbound traffic. -/
def openOp (s : ClientState) : ClientState × Output :=
  match s.conn with
  | .Connecting =>
      ({ s with conn := .Open },
       { sent := [.subscribeFrame (desiredIds s)], notified := [true],
         invoked := [], errors := [], dropped := 0 })
  | _ => (s, noOutput)

/-- Modelled from the spec: remote close or network error (spec
sections 4.1 and 7): enter `Closed`, notify observers with `false`,
and schedule the automatic reconnect.  A close event observed while
already `Idle` or `Closed` changes nothing (in particular, after an
explicit `disconnect()` it schedules no retry). -/
def closeOp (s : ClientState) : ClientState × Output :=
  match s.conn with
  | .Open =>
      ({ s with conn := .Closed, reconnectPending := true },
       { sent := [], notified := [false], invoked := [], errors := [], dropped := 0 })
  | .Connecting =>
      ({ s with conn := .Closed, reconnectPending := true },
       { sent := [], notified := [false], invoked := [], errors := [], dropped := 0 })
  | _ => (s, noOutput)

/-- Modelled from the spec: `disconnect()` (spec section 4.1):
transition to `Idle` unconditionally and cancel any pending automatic
reconnect timer. -/
def disconnectOp (s : ClientState) : ClientState :=
  { s with conn := .Idle, reconnectPending := false }

/-- Modelled from the spec: the backoff timer fires (spec section 4.1
`Closed -> Connecting`, automatic retry). -/
def timerOp (s : ClientState) : ClientState :=
  if s.reconnectPending then
    { s with conn := .Connecting, reconnectPending := false }
  else s

/-- Modelled from the spec: `subscribe(ids)` (spec section 4.2):
increment reference counts; if the connection is `Open`, send one
subscribe control frame batching exactly the newly-added ids. -/
def subscribeOp (s : ClientState) (ids : List String) : ClientState × Output :=
  let r := addIds s.refCounts ids
  ({ s with refCounts := r.1 },
   { sent := if s.conn = .Open ∧ r.2 ≠ [] then [.subscribeFrame r.2] else [],
     notified := [], invoked := [], errors := [], dropped := 0 })

/-- Modelled from the spec: `unsubscribe(ids)` (spec section 4.2):
decrement reference counts; if the connection is `Open`, send one
unsubscribe control frame for exactly the ids that reached zero. -/
def unsubscribeOp (s : ClientState) (ids : List String) : ClientState × Output :=
  let r := removeIds s.refCounts ids
  ({ s with refCounts := r.1 },
   { sent := if s.conn = .Open ∧ r.2 ≠ [] then [.unsubscribeFrame r.2] else [],
     notified := [], invoked := [], errors := [], dropped := 0 })

/-- Modelled from the spec: invoke the given listener registrations in
order on an event (spec section 4.3 step 3).  Each callback may throw;
the exception is caught per-listener and recorded as a reported error,
and the remaining listeners are still invoked.  Returns the invocation
trace and the caught errors. -/
def invokeList (cb : Nat → Event → Except String Unit) :
    List (Nat × String) → Event → List (Nat × Event) × List (Nat × String)
  | [], _ => ([], [])
  | p :: rest, e =>
      let r := invokeList cb rest e
      match cb p.1 e with
      | .ok _ => ((p.1, e) :: r.1, r.2)
      | .error msg => ((p.1, e) :: r.1, (p.1, msg) :: r.2)

/-- Modelled from the spec: `dispatch(rawFrame)` (spec section 4.3):
decode; on failure drop the frame and report, without disturbing the
router; otherwise invoke the listeners registered for the event's
`type`, in registration order, catching listener exceptions
per-listener. -/
def dispatchOp (cb : Nat → Event → Except String Unit) (s : ClientState)
    (f : RawFrame) : ClientState × Output :=
  match decodeFrame f with
  | none =>
      (s, { sent := [], notified := [], invoked := [], errors := [], dropped := 1 })
  | some e =>
      let matching := s.listeners.filter (fun p => p.2 == e.type)
      let r := invokeList cb matching e
      (s, { sent := [], notified := [], invoked := r.1, errors := r.2, dropped := 0 })

/-- Modelled from the spec: `on(type, callback)` (spec section 4.3):
append a fresh registration for the type; the returned registration id
identifies the disposer. -/
def onReg (s : ClientState) (t : String) : ClientState × Nat :=
  ({ s with
      listeners := s.listeners ++ [(s.nextRegId, t)]
      nextRegId := s.nextRegId + 1 },
   s.nextRegId)

/-- Modelled from the spec: the disposer returned by `on` (spec
section 4.3): remove exactly that registration; a second call finds
nothing to remove. -/
def disposeReg (s : ClientState) (rid : Nat) : ClientState :=
  { s with listeners := s.listeners.filter (fun p => !(p.1 == rid)) }

/-- Modelled from the spec: one step of the client under a stimulus or
caller operation.  `cb` gives each registered callback's behaviour
(returning normally or throwing) on each event. -/
def step (cb : Nat → Event → Except String Unit) (s : ClientState) :
    Action → ClientState × Output
  | .connect => (connectOp s, noOutput)
  | .openEvt => openOp s
  | .closeEvt => closeOp s
  | .disconnect => (disconnectOp s, noOutput)
  | .timerFire => (timerOp s, noOutput)
  | .subscribeAct ids => subscribeOp s ids
  | .unsubscribeAct ids => unsubscribeOp s ids
  | .frame f => dispatchOp cb s f
  | .onAct t => ((onReg s t).1, noOutput)
  | .disposeAct rid => (disposeReg s rid, noOutput)

/-- Run the client over a sequence of actions, collecting each step's
output. -/
def run (cb : Nat → Event → Except String Unit) (s : ClientState) :
    List Action → ClientState × List Output
  | [] => (s, [])
  | a :: as =>
      let r := step cb s a
      let rs := run cb r.1 as
      (rs.1, r.2 :: rs.2)

/-- All listener invocations of a sequence of step outputs, in order. -/
def allInvoked (os : List Output) : List (Nat × Event) :=
  os.foldr (fun o acc => o.invoked ++ acc) []

/-- The listener-invocation trace produced by delivering a sequence of
raw frames on one connection. -/
def frameTrace (cb : Nat → Event → Except String Unit) (s : ClientState)
    (frames : List RawFrame) : List (Nat × Event) :=
  allInvoked (run cb s (frames.map Action.frame)).2

/-! ## The `useWebSocket` hook wrapper (src/unnamed/part_004)

The hook keeps the client in a ref (`clientRef.current`), which is
`null` until the mount effect constructs the client.  Its returned
operations guard every call on that ref. -/

/-- Embedding of the hook's `on` wrapper (src/unnamed/part_004 lines
22-27): with a live client, delegate to the client's `on` and hand back
its disposer (identified here by the registration id); with a `null`
ref, register nothing and hand back the no-op disposer (`none`). -/
def hookOn (ref : Option ClientState) (t : String) :
    Option ClientState × Option Nat :=
  match ref with
  | none => (none, none)
  | some c => (some (onReg c t).1, some (onReg c t).2)

/-- Running a disposer returned by the hook's `on`: the real disposer
removes its registration; the no-op disposer does nothing. -/
def runDisposer (ref : Option ClientState) (d : Option Nat) :
    Option ClientState :=
  match d, ref with
  | some rid, some c => some (disposeReg c rid)
  | _, r => r

/-- Embedding of the hook's `subscribe` wrapper (src/unnamed/part_004
lines 29-33): delegate when the client exists, otherwise do nothing
and send nothing. -/
def hookSubscribe (ref : Option ClientState) (ids : List String) :
    Option ClientState × Output :=
  match ref with
  | none => (none, noOutput)
  | some c => (some (subscribeOp c ids).1, (subscribeOp c ids).2)

/-- Embedding of the hook's `unsubscribe` wrapper (src/unnamed/part_004
lines 35-39): delegate when the client exists, otherwise do nothing
and send nothing. -/
def hookUnsubscribe (ref : Option ClientState) (ids : List String) :
    Option ClientState × Output :=
  match ref with
  | none => (none, noOutput)
  | some c => (some (unsubscribeOp c ids).1, (unsubscribeOp c ids).2)

/-! ## Session-level view: clients live over a browser session

`useWebSocket`'s mount effect constructs exactly one `WebSocketClient`
and its cleanup disconnects it; each page calls the hook once and wires
all of its UI regions to that single client's `on`. -/

/-- The set of live (constructed, not yet disconnected) clients in one
browser session, keyed by construction order. -/
structure Session where
  nextClientId : Nat
  clients : List (Nat × ClientState)
  deriving Repr, DecidableEq

/-- A session with no live client. -/
def emptySession : Session :=
  { nextClientId := 0, clients := [] }

/-- Embedding of the hook's mount effect (src/unnamed/part_004 lines
9-20): construct one `WebSocketClient`, store it in the ref and call
`connect()`; the returned id is the handle to that single client. -/
def useWebSocketMount (sid : Option String) (sess : Session) :
    Session × Nat :=
  ({ nextClientId := sess.nextClientId + 1
     clients := sess.clients ++ [(sess.nextClientId, connectOp (newClient sid))] },
   sess.nextClientId)

/-- Embedding of the hook's effect cleanup (src/unnamed/part_004 lines
16-19): disconnect the client; it leaves the session's live set. -/
def useWebSocketUnmount (cid : Nat) (sess : Session) : Session :=
  { sess with clients := sess.clients.filter (fun p => !(p.1 == cid)) }

/-- Register one listener on the session's client `cid` through the
hook's `on`. -/
def regOn (cid : Nat) (t : String) (sess : Session) : Session :=
  { sess with clients :=
      sess.clients.map (fun p => if p.1 = cid then (p.1, (onReg p.2 t).1) else p) }

/-- Embedding of `ScanDetailPage`'s websocket usage (src/unnamed/part_005
lines 30 and 69-121): one `useWebSocket(scanId)` call, then six
listener registrations, all through the single returned client. -/
def scanDetailPageMount (scanId : String) (sess : Session) :
    Session × Nat :=
  let m := useWebSocketMount (some scanId) sess
  (regOn m.2 "stats_updated"
    (regOn m.2 "vulnerability_found"
      (regOn m.2 "tool_execution"
        (regOn m.2 "message"
          (regOn m.2 "agent_updated"
            (regOn m.2 "agent_created" m.1))))),
   m.2)

/-- Embedding of `HomePage`'s websocket usage
(src/frontend/src/hooks/useVulnerabilities.ts lines 267-299): one
`useWebSocket(null)` call, then three listener registrations, all
through the single returned client. -/
def homePageMount (sess : Session) : Session × Nat :=
  let m := useWebSocketMount none sess
  (regOn m.2 "scan_deleted"
    (regOn m.2 "scan_updated"
      (regOn m.2 "scan_created" m.1)),
   m.2)

/-- The listener registrations held by the session's client `cid`. -/
def clientListeners (sess : Session) (cid : Nat) : List (Nat × String) :=
  match sess.clients.find? (fun p => p.1 == cid) with
  | some p => p.2.listeners
  | none => []

/-! ## Concrete fixtures used to exercise the model -/

/-- A callback semantics where every listener returns normally. -/
def okCb : Nat → Event → Except String Unit := fun _ _ => Except.ok ()

/-- A callback semantics where every listener throws. -/
def errCb : Nat → Event → Except String Unit := fun _ _ => Except.error "listener threw"

/-- A concrete chat-message event. -/
def evMessage : Event :=
  { type := "message", data := [("content", "hi")], scan_id := some "s1",
    timestamp := none }

/-- A concrete stats event. -/
def evStats : Event :=
  { type := "stats_updated", data := [], scan_id := some "s1", timestamp := some 7 }

/-- A concrete open client with three listener registrations. -/
def demoClient : ClientState :=
  { conn := .Open, refCounts := [("s1", 1)],
    listeners := [(0, "message"), (1, "message"), (2, "stats_updated")],
    nextRegId := 3, reconnectPending := false, initialScanId := some "s1" }

/-- A concrete client mid-handshake with desired set `{a, b}`. -/
def connectingClient : ClientState :=
  { conn := .Connecting, refCounts := [("a", 1), ("b", 1)], listeners := [],
    nextRegId := 0, reconnectPending := false, initialScanId := none }

/-! ## Basic lemmas about dispatch and traces -/

lemma invokeList_fst (cb : Nat → Event → Except String Unit)
    (ls : List (Nat × String)) (e : Event) :
    (invokeList cb ls e).1 = ls.map (fun p => (p.1, e)) := by
  induction ls with
  | nil => rfl
  | cons p rest ih =>
      cases h : cb p.1 e <;> simp [invokeList, h, ih]

lemma dispatchOp_fst (cb : Nat → Event → Except String Unit) (s : ClientState)
    (f : RawFrame) : (dispatchOp cb s f).1 = s := by
  cases h : decodeFrame f <;> simp [dispatchOp, h]

lemma dispatchOp_invoked_none (cb : Nat → Event → Except String Unit)
    (s : ClientState) (f : RawFrame) (h : decodeFrame f = none) :
    (dispatchOp cb s f).2.invoked = [] := by
  simp [dispatchOp, h]

lemma dispatchOp_invoked_some (cb : Nat → Event → Except String Unit)
    (s : ClientState) (f : RawFrame) (e : Event) (h : decodeFrame f = some e) :
    (dispatchOp cb s f).2.invoked
      = (s.listeners.filter (fun p => p.2 == e.type)).map (fun p => (p.1, e)) := by
  simp [dispatchOp, h, invokeList_fst]

lemma frameTrace_nil (cb : Nat → Event → Except String Unit) (s : ClientState) :
    frameTrace cb s [] = [] := rfl

lemma frameTrace_cons (cb : Nat → Event → Except String Unit) (s : ClientState)
    (f : RawFrame) (fs : List RawFrame) :
    frameTrace cb s (f :: fs)
      = (dispatchOp cb s f).2.invoked ++ frameTrace cb s fs := by
  simp [frameTrace, run, allInvoked, step, dispatchOp_fst]

/-! ## Lemmas about listener lookup by registration id -/

lemma keys_unique {ls : List (Nat × String)} {k : Nat} {a b : String}
    (hnd : (ls.map Prod.fst).Nodup) (ha : (k, a) ∈ ls) (hb : (k, b) ∈ ls) :
    a = b := by
  induction ls with
  | nil => cases ha
  | cons p rest ih =>
      rw [List.map_cons, List.nodup_cons] at hnd
      obtain ⟨hnd1, hnd2⟩ := hnd
      rcases List.mem_cons.mp ha with ha1 | ha2 <;>
        rcases List.mem_cons.mp hb with hb1 | hb2
      · have hab : (k, a) = (k, b) := ha1.trans hb1.symm
        exact (Prod.mk.injEq k a k b ▸ hab).2
      · rw [← ha1] at hnd1
        exact absurd (List.mem_map_of_mem Prod.fst hb2) hnd1
      · rw [← hb1] at hnd1
        exact absurd (List.mem_map_of_mem Prod.fst ha2) hnd1
      · exact ih hnd2 ha2 hb2

lemma mem_filter_map_invoked {ls : List (Nat × String)} {x : Nat} {e e0 : Event}
    (h : (x, e) ∈ (ls.filter (fun p => p.2 == e0.type)).map (fun p => (p.1, e0))) :
    e = e0 ∧ (x, e0.type) ∈ ls := by
  rcases List.mem_map.mp h with ⟨p, hp, heq⟩
  rcases List.mem_filter.mp hp with ⟨hmem, htype⟩
  have hx : p.1 = x := congrArg Prod.fst heq
  have he : e0 = e := congrArg Prod.snd heq
  have ht : p.2 = e0.type := by
    exact beq_iff_eq.mp htype
  refine ⟨he.symm, ?_⟩
  have : (p.1, p.2) = (x, e0.type) := by rw [hx, ht]
  rw [← this]
  exact hmem

lemma filter_key_not_mem {ls : List (Nat × String)} {rid : Nat}
    (h : rid ∉ ls.map Prod.fst) (t : String) (e : Event) :
    ((ls.filter (fun p => p.2 == t)).map (fun p => (p.1, e))).filter
        (fun p => p.1 == rid) = [] := by
  induction ls with
  | nil => rfl
  | cons p rest ih =>
      rw [List.map_cons, List.mem_cons, not_or] at h
      by_cases hb : p.2 = t
      · simp [hb, Ne.symm h.1, ih h.2]
      · simp [hb, ih h.2]

lemma filter_key_single {ls : List (Nat × String)} {rid : Nat} {t : String}
    (hnd : (ls.map Prod.fst).Nodup) (hmem : (rid, t) ∈ ls) (e : Event) :
    ((ls.filter (fun p => p.2 == e.type)).map (fun p => (p.1, e))).filter
        (fun p => p.1 == rid)
      = if e.type = t then [(rid, e)] else [] := by
  induction ls with
  | nil => cases hmem
  | cons p rest ih =>
      rw [List.map_cons, List.nodup_cons] at hnd
      rcases List.mem_cons.mp hmem with h1 | h2
      · have hp1 : p.1 = rid := by rw [← h1]
        have hp2 : p.2 = t := by rw [← h1]
        have hrest : rid ∉ rest.map Prod.fst := hp1 ▸ hnd.1
        by_cases hb : e.type = t
        · simp [hp1, hp2, hb, filter_key_not_mem hrest]
        · have : ¬ p.2 = e.type := by rw [hp2]; exact fun hc => hb hc.symm
          simp [this, hb, filter_key_not_mem hrest]
      · have hne : p.1 ≠ rid := by
          intro hc
          exact hnd.1 (hc ▸ List.mem_map_of_mem Prod.fst h2)
        by_cases hb : p.2 = e.type
        · simp [hb, hne, ih hnd.2 h2]
        · simp [hb, hne, ih hnd.2 h2]

/-- C1: for every sequence of frames received on a single connection and
every listener registered before dispatch begins, the Event Router
invokes that listener on the events of its type in exactly the relative
order the frames arrived on the transport: the sub-trace of deliveries
to the listener equals the arrival-ordered list of decoded events
carrying that type. -/
theorem eventRouterOrdering (cb : Nat → Event → Except String Unit)
    (s : ClientState) (rid : Nat) (t : String) (frames : List RawFrame)
    (hnd : (s.listeners.map Prod.fst).Nodup) (hmem : (rid, t) ∈ s.listeners) :
    ((frameTrace cb s frames).filter (fun p => p.1 == rid)).map Prod.snd
      = (frames.filterMap decodeFrame).filter (fun e => e.type == t) := by
  induction frames with
  | nil => rfl
  | cons f fs ih =>
      rw [frameTrace_cons, List.filterMap_cons, List.filter_append, List.map_append]
      cases h : decodeFrame f with
      | none =>
          rw [dispatchOp_invoked_none cb s f h]
          simpa using ih
      | some e =>
          rw [dispatchOp_invoked_some cb s f e h, filter_key_single hnd hmem e]
          by_cases hb : e.type = t
          · simp [hb, ih]
          · simp [hb, ih]

/-- Closed witness for C1: on a concrete client with two `message`
listeners and one `stats_updated` listener, delivering a message
frame, a malformed frame and a stats frame, listener 0 observes
exactly the message event. -/
theorem eventRouterOrdering_witness :
    (demoClient.listeners.map Prod.fst).Nodup ∧
    (0, "message") ∈ demoClient.listeners ∧
    ((frameTrace okCb demoClient
        [.jsonEvent evMessage, .notJson "x", .jsonEvent evStats]).filter
          (fun p => p.1 == 0)).map Prod.snd
      = ([RawFrame.jsonEvent evMessage, .notJson "x",
          .jsonEvent evStats].filterMap decodeFrame).filter
          (fun e => e.type == "message") :=
  ⟨by decide, by decide,
   eventRouterOrdering okCb demoClient 0 "message"
     [.jsonEvent evMessage, .notJson "x", .jsonEvent evStats]
     (by decide) (by decide)⟩

/-- C2: a listener registered for event type `t` is only ever invoked
with events whose own `type` tag is `t`; it never receives an event of
a different type. -/
theorem eventRouterTypeIsolation (cb : Nat → Event → Except String Unit)
    (s : ClientState) (rid : Nat) (t : String) (e : Event)
    (frames : List RawFrame)
    (hnd : (s.listeners.map Prod.fst).Nodup) (hmem : (rid, t) ∈ s.listeners)
    (hin : (rid, e) ∈ frameTrace cb s frames) : e.type = t := by
  induction frames with
  | nil => cases hin
  | cons f fs ih =>
      rw [frameTrace_cons] at hin
      rcases List.mem_append.mp hin with h1 | h2
      · cases h : decodeFrame f with
        | none =>
            rw [dispatchOp_invoked_none cb s f h] at h1
            cases h1
        | some e0 =>
            rw [dispatchOp_invoked_some cb s f e0 h] at h1
            obtain ⟨he, hm⟩ := mem_filter_map_invoked h1
            subst he
            exact keys_unique hnd hm hmem
      · exact ih h2

/-- Closed witness for C2: listener 2 (registered for `stats_updated`)
receives the concrete stats event, whose type is indeed
`stats_updated`. -/
theorem eventRouterTypeIsolation_witness :
    (demoClient.listeners.map Prod.fst).Nodup ∧
    (2, "stats_updated") ∈ demoClient.listeners ∧
    (2, evStats) ∈ frameTrace okCb demoClient
      [.jsonEvent evMessage, .jsonEvent evStats] ∧
    evStats.type = "stats_updated" :=
  ⟨by decide, by decide, by decide,
   eventRouterTypeIsolation okCb demoClient 2 "stats_updated" evStats
     [.jsonEvent evMessage, .jsonEvent evStats]
     (by decide) (by decide) (by decide)⟩

/-! ## Subscription registry: reference-count semantics -/

lemma incCount_not_mem {rc : List (String × Nat)} {x : String}
    (h : x ∉ rc.map Prod.fst) : incCount rc x = rc ++ [(x, 1)] := by
  induction rc with
  | nil => rfl
  | cons p rest ih =>
      obtain ⟨y, m⟩ := p
      rw [List.map_cons, List.mem_cons, not_or] at h
      simp [incCount, Ne.symm h.1, ih h.2]

lemma incCount_append_not_mem {rc : List (String × Nat)} {x : String} (n : Nat)
    (h : x ∉ rc.map Prod.fst) :
    incCount (rc ++ [(x, n)]) x = rc ++ [(x, n + 1)] := by
  induction rc with
  | nil => simp [incCount]
  | cons p rest ih =>
      obtain ⟨y, m⟩ := p
      rw [List.map_cons, List.mem_cons, not_or] at h
      simp [incCount, Ne.symm h.1, ih h.2]

lemma decCount_append_not_mem {rc : List (String × Nat)} {x : String} (n : Nat)
    (h : x ∉ rc.map Prod.fst) :
    decCount (rc ++ [(x, n)]) x
      = if n ≤ 1 then rc else rc ++ [(x, n - 1)] := by
  induction rc with
  | nil => by_cases hn : n ≤ 1 <;> simp [decCount, hn]
  | cons p rest ih =>
      obtain ⟨y, m⟩ := p
      rw [List.map_cons, List.mem_cons, not_or] at h
      by_cases hn : n ≤ 1 <;> simp [decCount, Ne.symm h.1, ih h.2, hn]

/-- C3: for a scan identifier `x` not initially desired, `subscribe {x}`
twice followed by one `unsubscribe {x}` leaves `x` still in the desired
subscription set, and a second `unsubscribe {x}` removes it: reference
counts are incremented per subscribe and an identifier leaves the set
only when its count reaches zero. -/
theorem subscriptionRefCountSemantics (cb : Nat → Event → Except String Unit)
    (s : ClientState) (x : String) (hx : x ∉ s.refCounts.map Prod.fst) :
    x ∈ desiredIds (run cb s
      [.subscribeAct [x], .subscribeAct [x], .unsubscribeAct [x]]).1 ∧
    x ∉ desiredIds (run cb s
      [.subscribeAct [x], .subscribeAct [x], .unsubscribeAct [x],
       .unsubscribeAct [x]]).1 := by
  have h1 : incCount s.refCounts x = s.refCounts ++ [(x, 1)] := incCount_not_mem hx
  have h2 : incCount (s.refCounts ++ [(x, 1)]) x = s.refCounts ++ [(x, 2)] :=
    incCount_append_not_mem 1 hx
  have h3 : decCount (s.refCounts ++ [(x, 2)]) x = s.refCounts ++ [(x, 1)] := by
    rw [decCount_append_not_mem 2 hx]
    norm_num
  have h4 : decCount (s.refCounts ++ [(x, 1)]) x = s.refCounts := by
    rw [decCount_append_not_mem 1 hx]
    simp
  constructor
  · simp [run, step, subscribeOp, unsubscribeOp, addIds, removeIds, desiredIds,
      h1, h2, h3]
  · simp [run, step, subscribeOp, unsubscribeOp, addIds, removeIds, desiredIds,
      h1, h2, h3, h4]
    simpa using hx

/-- Closed witness for C3 on a fresh client and the identifier `s1`. -/
theorem subscriptionRefCountSemantics_witness :
    "s1" ∉ (newClient none).refCounts.map Prod.fst ∧
    ("s1" ∈ desiredIds (run okCb (newClient none)
        [.subscribeAct ["s1"], .subscribeAct ["s1"], .unsubscribeAct ["s1"]]).1 ∧
     "s1" ∉ desiredIds (run okCb (newClient none)
        [.subscribeAct ["s1"], .subscribeAct ["s1"], .unsubscribeAct ["s1"],
         .unsubscribeAct ["s1"]]).1) :=
  ⟨by decide, subscriptionRefCountSemantics okCb (newClient none) "s1" (by decide)⟩

/-! ## Transport: resync on every Open transition -/

/-- C4: the only step that brings the connection into `Open` is the
handshake-success event from `Connecting`, and that step's outbound
traffic is exactly one subscribe control frame carrying the entire
current desired subscription set — whatever was or was not sent on any
prior connection (the starting state is arbitrary), and before any
other outbound frame on the new connection. -/
theorem resyncOnOpenTransition (cb : Nat → Event → Except String Unit)
    (s : ClientState) (a : Action)
    (h1 : s.conn ≠ ConnState.Open)
    (h2 : ((step cb s a).1).conn = ConnState.Open) :
    a = Action.openEvt ∧
    (step cb s a).2.sent = [CtrlFrame.subscribeFrame (desiredIds s)] := by
  cases a with
  | connect =>
      exfalso
      cases hc : s.conn
      · simp [step, connectOp, hc] at h2
      · simp [step, connectOp, hc] at h2
      · exact h1 hc
      · simp [step, connectOp, hc] at h2
  | openEvt =>
      cases hc : s.conn
      · exfalso; simp [step, openOp, hc] at h2
      · simp [step, openOp, hc]
      · exact absurd hc h1
      · exfalso; simp [step, openOp, hc] at h2
  | closeEvt =>
      exfalso
      cases hc : s.conn
      · simp [step, closeOp, hc] at h2
      · simp [step, closeOp, hc] at h2
      · exact h1 hc
      · simp [step, closeOp, hc] at h2
  | disconnect => exfalso; simp [step, disconnectOp] at h2
  | timerFire =>
      exfalso
      by_cases hp : s.reconnectPending
      · simp [step, timerOp, hp] at h2
      · simp [step, timerOp, hp] at h2; exact h1 h2
  | subscribeAct ids => exfalso; simp [step, subscribeOp] at h2; exact h1 h2
  | unsubscribeAct ids => exfalso; simp [step, unsubscribeOp] at h2; exact h1 h2
  | frame f => exfalso; simp [step, dispatchOp_fst] at h2; exact h1 h2
  | onAct t => exfalso; simp [step, onReg] at h2; exact h1 h2
  | disposeAct rid => exfalso; simp [step, disposeReg] at h2; exact h1 h2

/-- Closed witness for C4: a client mid-handshake with desired set
`{a, b}` sends exactly one subscribe frame with both ids on `Open`. -/
theorem resyncOnOpenTransition_witness :
    connectingClient.conn ≠ ConnState.Open ∧
    ((step okCb connectingClient Action.openEvt).1).conn = ConnState.Open ∧
    (Action.openEvt = Action.openEvt ∧
     (step okCb connectingClient Action.openEvt).2.sent
       = [CtrlFrame.subscribeFrame (desiredIds connectingClient)]) :=
  ⟨by decide, by decide,
   resyncOnOpenTransition okCb connectingClient Action.openEvt
     (by decide) (by decide)⟩

/-! ## Transport: disconnect terminates the retry cycle -/

lemma quiescent_step (cb : Nat → Event → Except String Unit) (s : ClientState)
    (a : Action) (hc : s.conn = ConnState.Idle)
    (hp : s.reconnectPending = false) (ha : a ≠ Action.connect) :
    ((step cb s a).1).conn = ConnState.Idle ∧
    ((step cb s a).1).reconnectPending = false := by
  cases a with
  | connect => exact absurd rfl ha
  | openEvt => simp [step, openOp, hc, hp]
  | closeEvt => simp [step, closeOp, hc, hp]
  | disconnect => simp [step, disconnectOp]
  | timerFire => simp [step, timerOp, hp, hc]
  | subscribeAct ids => simp [step, subscribeOp, hc, hp]
  | unsubscribeAct ids => simp [step, unsubscribeOp, hc, hp]
  | frame f => simp [step, dispatchOp_fst, hc, hp]
  | onAct t => simp [step, onReg, hc, hp]
  | disposeAct rid => simp [step, disposeReg, hc, hp]

lemma quiescent_run (cb : Nat → Event → Except String Unit) (s : ClientState)
    (acts : List Action) (hc : s.conn = ConnState.Idle)
    (hp : s.reconnectPending = false)
    (hall : ∀ a ∈ acts, a ≠ Action.connect) :
    ((run cb s acts).1).conn = ConnState.Idle ∧
    ((run cb s acts).1).reconnectPending = false := by
  induction acts generalizing s with
  | nil => exact ⟨hc, hp⟩
  | cons a as ih =>
      have hq := quiescent_step cb s a hc hp (hall a (List.mem_cons_self a as))
      have hrest := ih (step cb s a).1 hq.1 hq.2
        (fun b hb => hall b (List.mem_cons_of_mem a hb))
      simpa [run] using hrest

/-- C5: an explicit `disconnect()` cancels any pending reconnect timer,
and afterwards — under any sequence of stimuli containing no new
explicit `connect()` (remote closes, timer firings, frames, handshake
events, subscriptions) — the connection never re-enters `Connecting`,
at any intermediate point of the sequence. -/
theorem noReconnectAfterDisconnect (cb : Nat → Event → Except String Unit)
    (s : ClientState) (acts : List Action) (n : Nat)
    (hno : Action.connect ∉ acts) :
    (disconnectOp s).reconnectPending = false ∧
    ((run cb (disconnectOp s) (acts.take n)).1).conn ≠ ConnState.Connecting := by
  have hall : ∀ a ∈ acts.take n, a ≠ Action.connect := by
    intro a ha hcontra
    exact hno (hcontra ▸ List.take_subset n acts ha)
  have h := quiescent_run cb (disconnectOp s) (acts.take n) rfl rfl hall
  exact ⟨rfl, by simp [h.1]⟩

/-- Closed witness for C5: after disconnecting the demo client, a close
event, a timer firing and a handshake event leave the connection out of
`Connecting`. -/
theorem noReconnectAfterDisconnect_witness :
    Action.connect ∉ [Action.closeEvt, Action.timerFire, Action.openEvt] ∧
    ((disconnectOp demoClient).reconnectPending = false ∧
     ((run okCb (disconnectOp demoClient)
        ([Action.closeEvt, Action.timerFire, Action.openEvt].take 3)).1).conn
       ≠ ConnState.Connecting) :=
  ⟨by decide, noReconnectAfterDisconnect okCb demoClient
     [Action.closeEvt, Action.timerFire, Action.openEvt] 3 (by decide)⟩

/-! ## Event Router: error handling -/

/-- C6: a malformed frame (non-JSON or missing `type`) arriving between
two well-formed frames is dropped with no listener delivery, and both
well-formed frames are still delivered exactly as they would have been
without it; the router's state is untouched, so nothing prevents
processing of subsequent frames. -/
theorem malformedFrameDropped (cb : Nat → Event → Except String Unit)
    (s : ClientState) (f1 fbad f2 : RawFrame)
    (hbad : decodeFrame fbad = none) :
    frameTrace cb s [f1, fbad, f2]
      = frameTrace cb s [f1] ++ frameTrace cb s [f2] ∧
    frameTrace cb s [fbad] = [] ∧
    (run cb s (List.map Action.frame [f1, fbad, f2])).1
      = (run cb s (List.map Action.frame [f1, f2])).1 := by
  refine ⟨?_, ?_, ?_⟩
  · simp [frameTrace_cons, frameTrace_nil, dispatchOp_invoked_none cb s fbad hbad]
  · simp [frameTrace_cons, frameTrace_nil, dispatchOp_invoked_none cb s fbad hbad]
  · simp [run, step, dispatchOp_fst]

/-- Closed witness for C6 with a non-JSON frame between a message frame
and a stats frame. -/
theorem malformedFrameDropped_witness :
    decodeFrame (RawFrame.notJson "garbage") = none ∧
    (frameTrace okCb demoClient
        [.jsonEvent evMessage, .notJson "garbage", .jsonEvent evStats]
      = frameTrace okCb demoClient [.jsonEvent evMessage]
        ++ frameTrace okCb demoClient [.jsonEvent evStats] ∧
     frameTrace okCb demoClient [.notJson "garbage"] = [] ∧
     (run okCb demoClient (List.map Action.frame
        [.jsonEvent evMessage, .notJson "garbage", .jsonEvent evStats])).1
      = (run okCb demoClient (List.map Action.frame
        [.jsonEvent evMessage, .jsonEvent evStats])).1) :=
  ⟨rfl, malformedFrameDropped okCb demoClient (.jsonEvent evMessage)
     (.notJson "garbage") (.jsonEvent evStats) rfl⟩

/-- C7: listener exceptions are caught per-listener: whatever each
callback does (including throwing, as `cb` is arbitrary), every
listener registered for the event's type is invoked, in registration
order, and the router's state is unchanged, so the next frame's
processing is unaffected. -/
theorem listenerErrorIsolation (cb : Nat → Event → Except String Unit)
    (s : ClientState) (f : RawFrame) (e : Event)
    (hdec : decodeFrame f = some e) :
    (step cb s (Action.frame f)).2.invoked
      = (s.listeners.filter (fun p => p.2 == e.type)).map (fun p => (p.1, e)) ∧
    (step cb s (Action.frame f)).1 = s :=
  ⟨dispatchOp_invoked_some cb s f e hdec, dispatchOp_fst cb s f⟩

/-- Closed witness for C7: with every callback throwing, both `message`
listeners of the demo client are still invoked on a message frame. -/
theorem listenerErrorIsolation_witness :
    decodeFrame (RawFrame.jsonEvent evMessage) = some evMessage ∧
    ((step errCb demoClient (Action.frame (.jsonEvent evMessage))).2.invoked
       = (demoClient.listeners.filter (fun p => p.2 == evMessage.type)).map
           (fun p => (p.1, evMessage)) ∧
     (step errCb demoClient (Action.frame (.jsonEvent evMessage))).1
       = demoClient) :=
  ⟨rfl, listenerErrorIsolation errCb demoClient (.jsonEvent evMessage)
     evMessage rfl⟩

/-! ## Event Router: disposer semantics -/

lemma key_notMem_disposed (ls : List (Nat × String)) (rid : Nat) :
    rid ∉ (ls.filter (fun p => !(p.1 == rid))).map Prod.fst := by
  intro h
  rcases List.mem_map.mp h with ⟨p, hp, hfst⟩
  rcases List.mem_filter.mp hp with ⟨hmem, hcond⟩
  rw [hfst] at hcond
  simp at hcond

lemma frameTrace_mem_keys {cb : Nat → Event → Except String Unit}
    {s : ClientState} {frames : List RawFrame} {x : Nat} {e : Event}
    (h : (x, e) ∈ frameTrace cb s frames) :
    x ∈ s.listeners.map Prod.fst := by
  induction frames with
  | nil => cases h
  | cons f fs ih =>
      rw [frameTrace_cons] at h
      rcases List.mem_append.mp h with h1 | h2
      · cases hdec : decodeFrame f with
        | none => rw [dispatchOp_invoked_none cb s f hdec] at h1; cases h1
        | some e0 =>
            rw [dispatchOp_invoked_some cb s f e0 hdec] at h1
            obtain ⟨he, hm⟩ := mem_filter_map_invoked h1
            exact List.mem_map_of_mem Prod.fst hm
      · exact ih h2

lemma filter_ne_idem (ls : List (Nat × String)) (rid : Nat) :
    (ls.filter (fun p => !(p.1 == rid))).filter (fun p => !(p.1 == rid))
      = ls.filter (fun p => !(p.1 == rid)) := by
  induction ls with
  | nil => rfl
  | cons p rest ih => by_cases h : p.1 = rid <;> simp [h, ih]

lemma filter_key_through_aux (rid rid' : Nat) (t : String) (e : Event)
    (h : rid' ≠ rid) (ls : List (Nat × String)) :
    ((ls.filter (fun a => a.2 == t && !(a.1 == rid))).map
        (fun p => (p.1, e))).filter (fun p => p.1 == rid')
      = ((ls.filter (fun p => p.2 == t)).map (fun p => (p.1, e))).filter
          (fun p => p.1 == rid') := by
  induction ls with
  | nil => rfl
  | cons p rest ih =>
      by_cases h1 : p.1 = rid
      · by_cases h2 : p.2 = t
        · simp [h1, h2, Ne.symm h, ih]
        · simp [h1, h2, ih]
      · by_cases h2 : p.2 = t
        · by_cases h3 : p.1 = rid' <;> simp [h, h1, h2, h3, ih]
        · simp [h1, h2, ih]

lemma filter_key_through (ls : List (Nat × String)) (rid rid' : Nat)
    (t : String) (e : Event) (h : rid' ≠ rid) :
    (((ls.filter (fun p => !(p.1 == rid))).filter (fun p => p.2 == t)).map
        (fun p => (p.1, e))).filter (fun p => p.1 == rid')
      = ((ls.filter (fun p => p.2 == t)).map (fun p => (p.1, e))).filter
          (fun p => p.1 == rid') := by
  rw [List.filter_filter]
  exact filter_key_through_aux rid rid' t e h ls

lemma disposed_trace_filter (cb : Nat → Event → Except String Unit)
    (s : ClientState) (rid rid' : Nat) (frames : List RawFrame)
    (h : rid' ≠ rid) :
    (frameTrace cb (disposeReg s rid) frames).filter (fun p => p.1 == rid')
      = (frameTrace cb s frames).filter (fun p => p.1 == rid') := by
  induction frames with
  | nil => rfl
  | cons f fs ih =>
      rw [frameTrace_cons, frameTrace_cons, List.filter_append,
        List.filter_append, ih]
      congr 1
      cases hdec : decodeFrame f with
      | none =>
          rw [dispatchOp_invoked_none cb (disposeReg s rid) f hdec,
            dispatchOp_invoked_none cb s f hdec]
      | some e0 =>
          rw [dispatchOp_invoked_some cb (disposeReg s rid) f e0 hdec,
            dispatchOp_invoked_some cb s f e0 hdec]
          exact filter_key_through s.listeners rid rid' e0.type e0 h

/-- C8: after a listener's disposer runs, no subsequent dispatch ever
invokes that listener; running the disposer again is a no-op; and every
other listener's deliveries — in particular those registered for the
same type — are exactly what they were before the disposal, in the same
order. -/
theorem disposerCorrectness (cb : Nat → Event → Except String Unit)
    (s : ClientState) (rid rid' : Nat) (e : Event) (frames : List RawFrame)
    (h : rid' ≠ rid) :
    (rid, e) ∉ frameTrace cb (disposeReg s rid) frames ∧
    disposeReg (disposeReg s rid) rid = disposeReg s rid ∧
    (frameTrace cb (disposeReg s rid) frames).filter (fun p => p.1 == rid')
      = (frameTrace cb s frames).filter (fun p => p.1 == rid') := by
  refine ⟨?_, ?_, disposed_trace_filter cb s rid rid' frames h⟩
  · intro hmem
    exact key_notMem_disposed s.listeners rid (frameTrace_mem_keys hmem)
  · simp [disposeReg, filter_ne_idem]

/-- Closed witness for C8: disposing listener 0 of the demo client
silences it on a message frame while listener 1 still receives the
event. -/
theorem disposerCorrectness_witness :
    (1 : Nat) ≠ 0 ∧
    ((0, evMessage) ∉ frameTrace okCb (disposeReg demoClient 0)
        [.jsonEvent evMessage] ∧
     disposeReg (disposeReg demoClient 0) 0 = disposeReg demoClient 0 ∧
     (frameTrace okCb (disposeReg demoClient 0) [.jsonEvent evMessage]).filter
         (fun p => p.1 == 1)
       = (frameTrace okCb demoClient [.jsonEvent evMessage]).filter
           (fun p => p.1 == 1)) :=
  ⟨by decide, disposerCorrectness okCb demoClient 0 1 evMessage
     [.jsonEvent evMessage] (by decide)⟩

/-! ## Session-level and hook-level claims -/

/-- C9: each page of the client session constructs exactly one
real-time client: mounting either page adds exactly one live client to
the session; from an empty session the mounted page's single client
(id 0) carries every one of the page's listener registrations — all UI
regions share it rather than opening their own connection — and the
page's unmount tears that one client down again. -/
theorem singleClientPerSession (scanId : String) (sess : Session) :
    (scanDetailPageMount scanId sess).1.clients.length
      = sess.clients.length + 1 ∧
    (homePageMount sess).1.clients.length = sess.clients.length + 1 ∧
    (scanDetailPageMount scanId emptySession).1.clients.map Prod.fst = [0] ∧
    (clientListeners (scanDetailPageMount scanId emptySession).1 0).map Prod.snd
      = ["agent_created", "agent_updated", "message", "tool_execution",
         "vulnerability_found", "stats_updated"] ∧
    (homePageMount emptySession).1.clients.map Prod.fst = [0] ∧
    (useWebSocketUnmount (scanDetailPageMount scanId emptySession).2
        (scanDetailPageMount scanId emptySession).1).clients = [] := by
  refine ⟨?_, ?_, rfl, rfl, rfl, rfl⟩
  · simp [scanDetailPageMount, regOn, useWebSocketMount]
  · simp [homePageMount, regOn, useWebSocketMount]

/-- C10: every operation returned by the hook is a safe no-op while
`clientRef.current` is null: `on` registers nothing and returns the
do-nothing disposer, whose invocation changes nothing, and `subscribe`
and `unsubscribe` change nothing and send nothing; none of them can
fail. -/
theorem nullClientRefNoOp (t : String) (ids : List String)
    (ref : Option ClientState) :
    hookOn none t = (none, none) ∧
    runDisposer ref none = ref ∧
    hookSubscribe none ids = (none, noOutput) ∧
    hookUnsubscribe none ids = (none, noOutput) := by
  refine ⟨rfl, ?_, rfl, rfl⟩
  cases ref <;> rfl

end Strix
